import Mathlib

/-!
Verification of the card-stack controller and opportunity generator of the
civic-engagement dashboard (frontend/src/components/dashboard/CardStack.tsx).

The first part embeds the data model and the handlers (`handleSkip`,
`handleAccept`, `handleReviewCard`, `handleAcceptOpportunity`) and the
`generateOpportunities` function as pure Lean functions; the second part
proves the specified properties about them.
-/

namespace Fulcrum

/-- Embeds the `type` union of `ImpactOpportunity` ("vote" | "meeting" | "action"). -/
inductive OppType where
  | vote
  | meeting
  | action
deriving DecidableEq

/-- Embeds the `urgency` union of `ImpactOpportunity` ("urgent" | "soon" | "upcoming"). -/
inductive Urgency where
  | urgent
  | soon
  | upcoming
deriving DecidableEq

/-- Embeds the `ImpactOpportunity` record of CardStack.tsx.  Optional fields of
the TypeScript interface become `Option String`; `impactSummary` and
`sponsoredBy` are set by the generator even though the interface at the top of
the file omits them, so they are included here as optional fields. -/
structure ImpactOpportunity where
  id : String
  type : OppType
  urgency : Urgency
  title : String
  description : String
  impactSummary : Option String
  impact : String
  location : Option String
  date : Option String
  costImpact : Option String
  recommendedAction : Option String
  sponsoredBy : Option String
deriving DecidableEq

/-- Embeds the decision tag of `ReviewedCard` ("accepted" | "skipped"). -/
inductive ReviewAction where
  | accepted
  | skipped
deriving DecidableEq

/-- Embeds the `ReviewedCard` record: an opportunity paired with a decision. -/
structure ReviewedCard where
  opportunity : ImpactOpportunity
  action : ReviewAction
deriving DecidableEq

/-- Embeds the `TodoItem` record built by `handleAcceptOpportunity`. -/
structure TodoItem where
  id : String
  action : String
  location : Option String
  date : Option String
  completed : Bool
  type : OppType
deriving DecidableEq

/-- The state of the `CardStack` component: the immutable `opportunities` prop,
and the `stack`, `reviewed` and `showSummary` pieces of React state. -/
structure CardState where
  opportunities : List ImpactOpportunity
  stack : List ImpactOpportunity
  reviewed : List ReviewedCard
  showSummary : Bool
deriving DecidableEq

/-- A skipped review entry, as built by `handleSkip`. -/
def skipEntry (o : ImpactOpportunity) : ReviewedCard :=
  { opportunity := o, action := ReviewAction.skipped }

/-- An accepted review entry, as built by `handleAccept`. -/
def acceptEntry (o : ImpactOpportunity) : ReviewedCard :=
  { opportunity := o, action := ReviewAction.accepted }

/-- Component initialization: `useState(opportunities)`, `useState([])`,
`useState(false)`. -/
def initState (opportunities : List ImpactOpportunity) : CardState :=
  { opportunities := opportunities, stack := opportunities,
    reviewed := [], showSummary := false }

/-- Embeds `handleSkip`: a guard on an empty stack, rotation of the front card
to the back, a record-once append to `reviewed`, and the summary check
`reviewed.length + 1 >= opportunities.length` (evaluated on the pre-update
`reviewed`, exactly as the source closure does). -/
def handleSkip (s : CardState) : CardState :=
  match s.stack with
  | [] => s
  | cur :: rest =>
    let newStack := rest ++ [cur]
    let newReviewed :=
      if s.reviewed.any (fun r => r.opportunity.id == cur.id) then s.reviewed
      else s.reviewed ++ [skipEntry cur]
    let newSummary :=
      if s.reviewed.length + 1 ≥ s.opportunities.length then true else s.showSummary
    { s with stack := newStack, reviewed := newReviewed, showSummary := newSummary }

/-- Embeds `handleAcceptOpportunity` of the dashboard component: the TodoItem
derived from an accepted opportunity.  The JavaScript expression
`opportunity.recommendedAction || ...` falls back when the field is absent or
is the empty string (both are falsy). -/
def handleAcceptOpportunity (opportunity : ImpactOpportunity) : TodoItem :=
  let fallback := "Take action on " ++ opportunity.title
  { id := opportunity.id,
    action :=
      match opportunity.recommendedAction with
      | some a => if a = "" then fallback else a
      | none => fallback,
    location := opportunity.location,
    date := opportunity.date,
    completed := false,
    type := opportunity.type }

/-- The result of one `handleAccept` call: the new component state, the
opportunity forwarded through `onAccept` (already converted to the TodoItem the
dashboard collaborator builds), and the review list forwarded through
`onComplete` when the stack empties. -/
structure AcceptResult where
  state : CardState
  todoEmitted : Option TodoItem
  completedEmitted : Option (List ReviewedCard)
deriving DecidableEq

/-- Embeds `handleAccept`: a guard on an empty stack, permanent removal of the
front card, replacement of any prior review entry for its id by an accepted
entry, emission via `onAccept`, and on an emptied stack the summary flag and
the `onComplete` emission. -/
def handleAccept (s : CardState) : AcceptResult :=
  match s.stack with
  | [] => { state := s, todoEmitted := none, completedEmitted := none }
  | cur :: rest =>
    let newReviewed :=
      (s.reviewed.filter (fun r => r.opportunity.id != cur.id)) ++ [acceptEntry cur]
    if rest.isEmpty then
      { state := { s with stack := rest, reviewed := newReviewed, showSummary := true },
        todoEmitted := some (handleAcceptOpportunity cur),
        completedEmitted := some newReviewed }
    else
      { state := { s with stack := rest, reviewed := newReviewed },
        todoEmitted := some (handleAcceptOpportunity cur),
        completedEmitted := none }

/-- The state part of `handleAccept`. -/
def acceptState (s : CardState) : CardState :=
  (handleAccept s).state

/-- Embeds `handleReviewCard` (the reconsider operation): re-add the card at
the front only when no card with its id is in the stack, and leave the summary
view. -/
def handleReviewCard (s : CardState) (opportunity : ImpactOpportunity) : CardState :=
  if s.stack.any (fun o => o.id == opportunity.id) then
    { s with showSummary := false }
  else
    { s with stack := opportunity :: s.stack, showSummary := false }

/-- `n` successive `handleSkip` calls. -/
def skipN : Nat → CardState → CardState
  | 0, s => s
  | n + 1, s => handleSkip (skipN n s)

/-- The number of distinct reviewed opportunity ids in a review list. -/
def distinctReviewedIds (rs : List ReviewedCard) : Nat :=
  ((rs.map (fun r => r.opportunity.id)).dedup).length

/-- Closed form for the state after `n` skips from a freshly initialized
stack: the queue rotated `n` places, the first `n` cards recorded as skipped,
and the summary flag raised once every card has been skipped. -/
def mkSkipState (opps : List ImpactOpportunity) (n : Nat) : CardState :=
  { opportunities := opps,
    stack := opps.rotate n,
    reviewed := (opps.take n).map skipEntry,
    showSummary := decide (opps.length ≤ n) }

/-- Embeds `VerificationAnswers` of the verification questionnaire: the eight
lifestyle booleans consumed by the generator. -/
structure VerificationAnswers where
  drives : Bool
  owns : Bool
  hasChildren : Bool
  usesTransit : Bool
  bikeCommutes : Bool
  isSmallBusinessOwner : Bool
  concernedAboutSafety : Bool
  usesParks : Bool
deriving DecidableEq

/-- The "parking-1" template pushed when `profile.drives` holds. -/
def parkingOpp : ImpactOpportunity :=
  { id := "parking-1", type := OppType.vote, urgency := Urgency.urgent,
    title := "Parking Meter Extension Prop C",
    description := "This proposition would extend parking meter hours from 6pm to 10pm in commercial districts across San Francisco.",
    impactSummary := some "Parking costs up $400/yr",
    impact := "As a driver, this will cost you ~$400/year in additional parking fees. Your usual spots on Valencia and 16th will be affected.",
    location := some "City Hall, Polling Station #24",
    date := some "November 5th, 7am - 8pm",
    costImpact := some "~$400/year additional cost",
    recommendedAction := some "Vote NO on Prop C at City Hall on November 5th to keep current parking meter hours.",
    sponsoredBy := none }

/-- The "transit-fare" template pushed when `profile.usesTransit` holds. -/
def transitFareOpp : ImpactOpportunity :=
  { id := "transit-fare", type := OppType.meeting, urgency := Urgency.soon,
    title := "SFMTA Fare Increase Proposal",
    description := "SFMTA is proposing a $0.50 fare increase for Muni and BART connections to address budget shortfalls.",
    impactSummary := some "Commute costs rising $260/yr",
    impact := "As a regular transit user, this would add ~$260/year to your commute costs based on typical usage.",
    location := some "SFMTA HQ, 1 South Van Ness",
    date := some "Wednesday, 10:00 AM",
    costImpact := some "~$260/year fare increase",
    recommendedAction := some "Attend the SFMTA board meeting and voice your opinion during public comment.",
    sponsoredBy := none }

/-- The "bike-lane" template pushed when `profile.bikeCommutes` holds. -/
def bikeLaneOpp : ImpactOpportunity :=
  { id := "bike-lane", type := OppType.action, urgency := Urgency.upcoming,
    title := "Valencia Street Protected Bike Lane",
    description := "SFMTA is deciding whether to make the Valencia Street protected bike lane permanent or remove it.",
    impactSummary := some "Your bike safety at stake",
    impact := "This directly affects your daily bike commute safety. The protected lane has reduced bike injuries by 40%.",
    location := some "Valencia Street (16th to Cesar Chavez)",
    date := some "Survey closes Friday",
    costImpact := none,
    recommendedAction := some "Submit your support for the permanent protected lane via the online survey by Friday.",
    sponsoredBy := none }

/-- The "rent-1" template pushed when `profile.owns` fails. -/
def rentOpp : ImpactOpportunity :=
  { id := "rent-1", type := OppType.meeting, urgency := Urgency.soon,
    title := "Rent Control Board Hearing",
    description := "The Rent Board is reviewing new guidelines for annual rent increases affecting rent-controlled units.",
    impactSummary := some "Rent hike coming soon",
    impact := "As a renter, proposed changes could increase your maximum annual rent by 1.5% more than current limits (~$75/month).",
    location := some "25 Van Ness Ave, Room 400",
    date := some "Tuesday, 2:00 PM",
    costImpact := none,
    recommendedAction := some "Attend the hearing on Tuesday at 2pm and state you oppose the proposed increase.",
    sponsoredBy := none }

/-- The "prop-tax" template pushed when `profile.owns` holds. -/
def propTaxOpp : ImpactOpportunity :=
  { id := "prop-tax", type := OppType.vote, urgency := Urgency.upcoming,
    title := "Prop D: School Bond Property Tax",
    description := "A new bond measure to fund SFUSD school repairs, adding approximately $200/year to property taxes.",
    impactSummary := some "Property tax up $200/yr",
    impact := "As a homeowner, this will increase your property tax by ~$200/year to fund school facility improvements.",
    location := some "Your local polling station",
    date := some "November 5th",
    costImpact := some "~$200/year property tax increase",
    recommendedAction := some "Research the bond details and vote on November 5th based on your priorities.",
    sponsoredBy := none }

/-- The "school-1" template pushed when `profile.hasChildren` holds. -/
def schoolOpp : ImpactOpportunity :=
  { id := "school-1", type := OppType.meeting, urgency := Urgency.upcoming,
    title := "SFUSD Budget Allocation Meeting",
    description := "The school board will discuss budget priorities. Art and music programs at several schools are on the chopping block.",
    impactSummary := some "Arts programs face 15% cuts",
    impact := "Your child\x27s school may face a 15% cut to arts programs, affecting after-school activities.",
    location := some "SFUSD Headquarters, Board Room",
    date := some "Next Thursday, 6:00 PM",
    costImpact := none,
    recommendedAction := some "Attend the board meeting Thursday at 6pm and advocate for maintaining arts funding.",
    sponsoredBy := none }

/-- The "biz-license" template pushed when `profile.isSmallBusinessOwner` holds. -/
def bizLicenseOpp : ImpactOpportunity :=
  { id := "biz-license", type := OppType.action, urgency := Urgency.soon,
    title := "Small Business License Fee Increase",
    description := "The city is proposing to increase annual business license fees by 25% for small businesses.",
    impactSummary := some "License fees rising 25%",
    impact := "As a small business owner, this would increase your annual licensing costs by several hundred dollars.",
    location := none,
    date := some "Petition deadline: Next Monday",
    costImpact := some "25% license fee increase",
    recommendedAction := some "Sign the Small Business Coalition petition opposing the fee increase.",
    sponsoredBy := none }

/-- The "safety-1" template pushed when `profile.concernedAboutSafety` holds. -/
def safetyOpp : ImpactOpportunity :=
  { id := "safety-1", type := OppType.meeting, urgency := Urgency.upcoming,
    title := "Police Commission Community Meeting",
    description := "The Police Commission is gathering community input on patrol priorities for your district.",
    impactSummary := some "Shape local patrol priorities",
    impact := "This is your chance to directly influence where police resources are allocated in your neighborhood.",
    location := some "Mission Cultural Center, 2868 Mission St",
    date := some "Next Wednesday, 7:00 PM",
    costImpact := none,
    recommendedAction := some "Attend the community meeting and share your safety concerns and priorities.",
    sponsoredBy := none }

/-- The "parks-1" template pushed when `profile.usesParks` holds. -/
def parksOpp : ImpactOpportunity :=
  { id := "parks-1", type := OppType.action, urgency := Urgency.upcoming,
    title := "Dolores Park Renovation Proposal",
    description := "SF Rec & Parks is seeking input on renovations including new restrooms, playground equipment, and dog areas.",
    impactSummary := some "Influence park renovations",
    impact := "As a park user, you can influence what amenities are prioritized in the renovation budget.",
    location := some "Dolores Park",
    date := some "Survey closes in 2 weeks",
    costImpact := none,
    recommendedAction := some "Complete the community survey to share your priorities for park improvements.",
    sponsoredBy := none }

/-- The "transit-plaza" general civic template, always pushed. -/
def transitPlazaOpp : ImpactOpportunity :=
  { id := "transit-plaza", type := OppType.action, urgency := Urgency.upcoming,
    title := "16th Street BART Plaza Redesign",
    description := "SFMTA is seeking community input on the redesign of the 16th Street BART plaza.",
    impactSummary := some "Redesign your BART plaza",
    impact := "Your input on safety improvements, lighting, and vendor space will directly influence the final design.",
    location := some "16th Street BART Station",
    date := some "Community Survey closes Friday",
    costImpact := none,
    recommendedAction := some "Complete the online survey by Friday. Focus on what matters most to you.",
    sponsoredBy := none }

/-- The "sponsored-solar" homeowner sponsored template. -/
def sponsoredSolarOpp : ImpactOpportunity :=
  { id := "sponsored-solar", type := OppType.action, urgency := Urgency.urgent,
    title := "Solar Tax Credit Extension Act",
    description := "California\x27s 30% solar tax credit expires December 31st. Installing solar now locks in maximum savings before the deadline.",
    impactSummary := some "Save $8K-15K on solar",
    impact := "As a homeowner, you could save $8,000-$15,000 on solar installation costs. This tax credit won\x27t be renewed at current levels.",
    location := none,
    date := some "Credit expires December 31st",
    costImpact := some "Save $8,000-$15,000 with tax credits",
    recommendedAction := some "Get a free solar assessment and lock in your tax credit before the deadline. Takes 5 minutes online.",
    sponsoredBy := some "SolarSF Coalition" }

/-- The "sponsored-tenants" renter sponsored template. -/
def sponsoredTenantsOpp : ImpactOpportunity :=
  { id := "sponsored-tenants", type := OppType.action, urgency := Urgency.urgent,
    title := "Stop the Costa-Hawkins Loophole",
    description := "A proposed amendment would allow landlords to reset rent to market rate after any renovation, even minor ones. This threatens rent control citywide.",
    impactSummary := some "Your rent could double",
    impact := "As a renter, this loophole could let your landlord raise your rent by 50-100% after any renovation. Your housing stability is at risk.",
    location := none,
    date := some "Petition deadline: This Friday",
    costImpact := none,
    recommendedAction := some "Sign the SF Tenants Union petition to close the loophole and protect rent control.",
    sponsoredBy := some "SF Tenants Union" }

/-- Embeds `generateOpportunities`: the fixed sequence of conditional pushes,
then the unconditional general civic item, then exactly one sponsored item
chosen by the ownership flag. -/
def generateOpportunities (profile : VerificationAnswers) : List ImpactOpportunity :=
  (if profile.drives then [parkingOpp] else [])
    ++ (if profile.usesTransit then [transitFareOpp] else [])
    ++ (if profile.bikeCommutes then [bikeLaneOpp] else [])
    ++ (if !profile.owns then [rentOpp] else [])
    ++ (if profile.owns then [propTaxOpp] else [])
    ++ (if profile.hasChildren then [schoolOpp] else [])
    ++ (if profile.isSmallBusinessOwner then [bizLicenseOpp] else [])
    ++ (if profile.concernedAboutSafety then [safetyOpp] else [])
    ++ (if profile.usesParks then [parksOpp] else [])
    ++ [transitPlazaOpp]
    ++ (if profile.owns then [sponsoredSolarOpp] else [sponsoredTenantsOpp])

/-- The nine conditional predicates of the generator, in declaration order. -/
def generatorPredicates : List (VerificationAnswers → Bool) :=
  [fun p => p.drives, fun p => p.usesTransit, fun p => p.bikeCommutes,
   fun p => !p.owns, fun p => p.owns, fun p => p.hasChildren,
   fun p => p.isSmallBusinessOwner, fun p => p.concernedAboutSafety,
   fun p => p.usesParks]

/-- The ids of the nine conditional templates, in declaration order. -/
def conditionalIds : List String :=
  ["parking-1", "transit-fare", "bike-lane", "rent-1", "prop-tax",
   "school-1", "biz-license", "safety-1", "parks-1"]

/-- How many of the nine generator predicates hold on the given attributes. -/
def satisfiedPredicateCount (p : VerificationAnswers) : Nat :=
  (generatorPredicates.filter (fun q => q p)).length

/-- Modelled from the spec: the id order the specification promises — each
conditional template id in predicate declaration order when its predicate
holds, then the general civic id, then the sponsored id chosen by the
ownership flag. -/
def specIdOrder (p : VerificationAnswers) : List String :=
  ((generatorPredicates.zip conditionalIds).filterMap
      (fun qi => if qi.1 p then some qi.2 else none))
    ++ ["transit-plaza"]
    ++ (if p.owns then ["sponsored-solar"] else ["sponsored-tenants"])

/-- The states reachable from some initialization by the component handlers. -/
inductive Reachable : CardState → Prop
  | init (opps : List ImpactOpportunity) : Reachable (initState opps)
  | skip {s : CardState} : Reachable s → Reachable (handleSkip s)
  | accept {s : CardState} : Reachable s → Reachable (acceptState s)
  | reconsider {s : CardState} (o : ImpactOpportunity) :
      Reachable s → Reachable (handleReviewCard s o)

/-- The attribute record with every boolean false. -/
def allFalseAttrs : VerificationAnswers :=
  { drives := false, owns := false, hasChildren := false, usesTransit := false,
    bikeCommutes := false, isSmallBusinessOwner := false,
    concernedAboutSafety := false, usesParks := false }

/-- The attribute record with every boolean true. -/
def allTrueAttrs : VerificationAnswers :=
  { drives := true, owns := true, hasChildren := true, usesTransit := true,
    bikeCommutes := true, isSmallBusinessOwner := true,
    concernedAboutSafety := true, usesParks := true }

/-- The scenario attributes: drivesCar true, ownsHome false, all else false. -/
def c4Attrs : VerificationAnswers :=
  { drives := true, owns := false, hasChildren := false, usesTransit := false,
    bikeCommutes := false, isSmallBusinessOwner := false,
    concernedAboutSafety := false, usesParks := false }

/-- A minimal concrete opportunity with id "A", used in scenario runs. -/
def oppA : ImpactOpportunity :=
  { id := "A", type := OppType.action, urgency := Urgency.upcoming,
    title := "card A", description := "", impactSummary := none, impact := "",
    location := none, date := none, costImpact := none,
    recommendedAction := none, sponsoredBy := none }

/-- A minimal concrete opportunity with id "B", used in scenario runs. -/
def oppB : ImpactOpportunity :=
  { id := "B", type := OppType.action, urgency := Urgency.upcoming,
    title := "card B", description := "", impactSummary := none, impact := "",
    location := none, date := none, costImpact := none,
    recommendedAction := none, sponsoredBy := none }

/-- A minimal concrete opportunity with id "C", used in scenario runs. -/
def oppC : ImpactOpportunity :=
  { id := "C", type := OppType.action, urgency := Urgency.upcoming,
    title := "card C", description := "", impactSummary := none, impact := "",
    location := none, date := none, costImpact := none,
    recommendedAction := none, sponsoredBy := none }

/-- The three-card demo stack [A, B, C]. -/
def demoOpps : List ImpactOpportunity := [oppA, oppB, oppC]

/-- Scenario state after one skip on the freshly initialized [A, B, C] stack. -/
def scenarioS1 : CardState := handleSkip (initState demoOpps)

/-- Scenario result of the subsequent accept (acting on B). -/
def scenarioAccept : AcceptResult := handleAccept scenarioS1

/-- Scenario state after the accept. -/
def scenarioS2 : CardState := scenarioAccept.state

/-- Scenario state after reconsidering card A. -/
def scenarioS3 : CardState := handleReviewCard scenarioS2 oppA

/-! ## Unfolding lemmas for the handlers -/

/-- `handleSkip` is the identity on an empty stack. -/
theorem handleSkip_nil (s : CardState) (h : s.stack = []) : handleSkip s = s := by
  unfold handleSkip
  rw [h]

/-- `handleSkip` on a non-empty stack, written out. -/
theorem handleSkip_cons (s : CardState) (cur : ImpactOpportunity)
    (rest : List ImpactOpportunity) (h : s.stack = cur :: rest) :
    handleSkip s =
      { s with
        stack := rest ++ [cur],
        reviewed :=
          if s.reviewed.any (fun r => r.opportunity.id == cur.id) then s.reviewed
          else s.reviewed ++ [skipEntry cur],
        showSummary :=
          if s.reviewed.length + 1 ≥ s.opportunities.length then true
          else s.showSummary } := by
  unfold handleSkip
  rw [h]

/-- `handleAccept` does nothing on an empty stack. -/
theorem handleAccept_nil (s : CardState) (h : s.stack = []) :
    handleAccept s =
      { state := s, todoEmitted := none, completedEmitted := none } := by
  unfold handleAccept
  rw [h]

/-- `handleAccept` on a non-empty stack, written out. -/
theorem handleAccept_cons (s : CardState) (cur : ImpactOpportunity)
    (rest : List ImpactOpportunity) (h : s.stack = cur :: rest) :
    handleAccept s =
      if rest.isEmpty then
        { state :=
            { s with
              stack := rest,
              reviewed :=
                (s.reviewed.filter (fun r => r.opportunity.id != cur.id))
                  ++ [acceptEntry cur],
              showSummary := true },
          todoEmitted := some (handleAcceptOpportunity cur),
          completedEmitted :=
            some ((s.reviewed.filter (fun r => r.opportunity.id != cur.id))
              ++ [acceptEntry cur]) }
      else
        { state :=
            { s with
              stack := rest,
              reviewed :=
                (s.reviewed.filter (fun r => r.opportunity.id != cur.id))
                  ++ [acceptEntry cur] },
          todoEmitted := some (handleAcceptOpportunity cur),
          completedEmitted := none } := by
  unfold handleAccept
  rw [h]

/-! ## Claim theorems -/

/-- Claim C10: on an empty queue, skip() and accept() are complete no-ops —
the state is unchanged, no TodoItem is emitted, and the completion callback is
not invoked. -/
theorem emptyQueue_skip_accept_noop (s : CardState) (h : s.stack = []) :
    handleSkip s = s ∧
    (handleAccept s).state = s ∧
    (handleAccept s).todoEmitted = none ∧
    (handleAccept s).completedEmitted = none := by
  refine ⟨handleSkip_nil s h, ?_, ?_, ?_⟩ <;> rw [handleAccept_nil s h]

/-- Witness for C10 at the empty initial state. -/
theorem emptyQueue_skip_accept_noop_witness :
    handleSkip (initState []) = initState [] ∧
    (handleAccept (initState [])).state = initState [] ∧
    (handleAccept (initState [])).todoEmitted = none ∧
    (handleAccept (initState [])).completedEmitted = none :=
  emptyQueue_skip_accept_noop (initState []) rfl

/-- Claim C7: reconsider leaves the review list untouched, clears the
summary-shown flag, inserts at the front exactly when the id is absent from
the queue, and is idempotent: a second reconsider of the same card without an
intervening skip or accept changes nothing. -/
theorem reconsider_front_insert_once (s : CardState) (o : ImpactOpportunity) :
    (handleReviewCard s o).reviewed = s.reviewed ∧
    (handleReviewCard s o).showSummary = false ∧
    (s.stack.any (fun x => x.id == o.id) = false →
      (handleReviewCard s o).stack = o :: s.stack) ∧
    (s.stack.any (fun x => x.id == o.id) = true →
      (handleReviewCard s o).stack = s.stack) ∧
    handleReviewCard (handleReviewCard s o) o = handleReviewCard s o := by
  by_cases h : s.stack.any (fun x => x.id == o.id) = true
  · simp [handleReviewCard, h]
  · have h2 : s.stack.any (fun x => x.id == o.id) = false := by
      simpa using h
    simp [handleReviewCard, h2, List.any_cons]

/-- Witness for C7: reconsidering card A on a queue holding only C inserts A
in front once, and a second reconsider changes nothing. -/
theorem reconsider_front_insert_once_witness :
    (handleReviewCard scenarioS2 oppA).reviewed = scenarioS2.reviewed ∧
    (handleReviewCard scenarioS2 oppA).showSummary = false ∧
    handleReviewCard (handleReviewCard scenarioS2 oppA) oppA =
      handleReviewCard scenarioS2 oppA ∧
    (handleReviewCard (initState [oppC]) oppA).stack = oppA :: [oppC] :=
  ⟨(reconsider_front_insert_once scenarioS2 oppA).1,
   (reconsider_front_insert_once scenarioS2 oppA).2.1,
   (reconsider_front_insert_once scenarioS2 oppA).2.2.2.2,
   (reconsider_front_insert_once (initState [oppC]) oppA).2.2.1 (by decide)⟩

/-- Claim C2: accept() on a non-empty queue drops the front card permanently,
replaces any prior review entry for its id with an accepted entry, emits the
derived TodoItem, sets the summary flag exactly when the queue empties and then
also emits the full review list; on a freshly initialized stack one accept
leaves N−1 queued cards and a single accepted review entry. -/
theorem accept_front_spec :
    (∀ (s : CardState) (cur : ImpactOpportunity) (rest : List ImpactOpportunity),
      s.stack = cur :: rest →
      (handleAccept s).state.stack = rest ∧
      (handleAccept s).state.reviewed =
        (s.reviewed.filter (fun r => r.opportunity.id != cur.id))
          ++ [acceptEntry cur] ∧
      (handleAccept s).todoEmitted = some (handleAcceptOpportunity cur) ∧
      (handleAccept s).state.showSummary = (rest.isEmpty || s.showSummary) ∧
      ((handleAccept s).completedEmitted
          = some ((handleAccept s).state.reviewed) ↔ rest = []) ∧
      (rest ≠ [] → (handleAccept s).completedEmitted = none)) ∧
    (∀ (opps : List ImpactOpportunity) (cur : ImpactOpportunity)
        (rest : List ImpactOpportunity), opps = cur :: rest →
      (handleAccept (initState opps)).state.stack.length = opps.length - 1 ∧
      (handleAccept (initState opps)).state.reviewed = [acceptEntry cur]) := by
  constructor
  · intro s cur rest h
    rw [handleAccept_cons s cur rest h]
    cases rest <;> simp
  · intro opps cur rest h
    subst h
    rw [handleAccept_cons (initState (cur :: rest)) cur rest rfl]
    cases rest <;> simp [initState]

/-- Witness for C2 on the fresh two-card stack [A, B]. -/
theorem accept_front_spec_witness :
    (handleAccept (initState [oppA, oppB])).state.stack = [oppB] ∧
    (handleAccept (initState [oppA, oppB])).todoEmitted
      = some (handleAcceptOpportunity oppA) ∧
    (handleAccept (initState [oppA, oppB])).completedEmitted = none ∧
    (handleAccept (initState [oppA, oppB])).state.stack.length = 1 ∧
    (handleAccept (initState [oppA, oppB])).state.reviewed = [acceptEntry oppA] :=
  ⟨(accept_front_spec.1 (initState [oppA, oppB]) oppA [oppB] rfl).1,
   (accept_front_spec.1 (initState [oppA, oppB]) oppA [oppB] rfl).2.2.1,
   (accept_front_spec.1 (initState [oppA, oppB]) oppA [oppB] rfl).2.2.2.2.2
     (by decide),
   (accept_front_spec.2 [oppA, oppB] oppA [oppB] rfl).1,
   (accept_front_spec.2 [oppA, oppB] oppA [oppB] rfl).2⟩

/-- Counterexample for C4: on attrs with drivesCar true and ownsHome false the
generator does not return 3 opportunities. -/
theorem c4_not_three_items : ¬ ((generateOpportunities c4Attrs).length = 3) := by
  decide

/-- Claim C4 (amended): on attrs with drivesCar true, ownsHome false and all
else false, the generator returns exactly 4 opportunities in the order
[parking-1, rent-1, transit-plaza, sponsored-tenants] — the not-ownsHome
predicate also fires and contributes the rent-control item. -/
theorem c4_generated_order :
    (generateOpportunities c4Attrs).map ImpactOpportunity.id
      = ["parking-1", "rent-1", "transit-plaza", "sponsored-tenants"] ∧
    (generateOpportunities c4Attrs).length = 4 := by
  constructor <;> decide

/-- Counterexample for C5: after skip(), accept() and reconsider("A") on the
[A, B, C] stack, the queue is not [A, C]. -/
theorem c5_reconsider_does_not_reorder : ¬ (scenarioS3.stack = [oppA, oppC]) := by
  decide

/-- Claim C5 (amended): on [A, B, C], skip() gives queue [B, C, A] and review
[(A, Skipped)]; accept() on B gives queue [C, A], review
[(A, Skipped), (B, Accepted)] and emits the TodoItem for B; reconsider("A")
then leaves the queue unchanged at [C, A] — A is still present in the queue,
because skip rotates instead of removing — leaves the review list unchanged,
and clears the Summary flag. -/
theorem c5_scenario_run :
    scenarioS1.stack = [oppB, oppC, oppA] ∧
    scenarioS1.reviewed = [skipEntry oppA] ∧
    scenarioS2.stack = [oppC, oppA] ∧
    scenarioS2.reviewed = [skipEntry oppA, acceptEntry oppB] ∧
    scenarioAccept.todoEmitted = some (handleAcceptOpportunity oppB) ∧
    (handleAcceptOpportunity oppB).id = "B" ∧
    scenarioS3.stack = [oppC, oppA] ∧
    scenarioS3.reviewed = scenarioS2.reviewed ∧
    scenarioS3.showSummary = false := by
  decide

/-- Counterexample for C8: with every boolean true the generated list length is
not the number of generator predicates plus one plus one (it is 10, while the
generator declares 9 predicates). -/
theorem c8_allTrue_length_mismatch :
    ¬ ((generateOpportunities allTrueAttrs).length
        = generatorPredicates.length + 1 + 1) := by
  decide

/-- Claim C8 (amended): with every boolean false the generated list has length
at least 2, contains the general civic item, and ends with the renter sponsored
template; with every boolean true its length is the number of satisfied
predicates (8, since the non-ownership predicate fails) plus 1 plus 1, and it
ends with the homeowner sponsored template. -/
theorem generator_boundary_profiles :
    (generateOpportunities allFalseAttrs).length ≥ 2 ∧
    transitPlazaOpp ∈ generateOpportunities allFalseAttrs ∧
    (generateOpportunities allFalseAttrs).getLast? = some sponsoredTenantsOpp ∧
    (generateOpportunities allTrueAttrs).length
      = satisfiedPredicateCount allTrueAttrs + 1 + 1 ∧
    satisfiedPredicateCount allTrueAttrs = 8 ∧
    (generateOpportunities allTrueAttrs).getLast? = some sponsoredSolarOpp := by
  refine ⟨by decide, by decide, by decide, by decide, by decide, by decide⟩

/-- Claim C9: the generator is a pure function — equal attribute records give
lists with identical ids in identical order — and that order is the fixed
predicate declaration order followed by the general item and the sponsored
item. -/
theorem generate_deterministic_declaration_order
    (p q : VerificationAnswers) (hpq : p = q) :
    (generateOpportunities p).map ImpactOpportunity.id
      = (generateOpportunities q).map ImpactOpportunity.id ∧
    (generateOpportunities p).map ImpactOpportunity.id = specIdOrder p := by
  subst hpq
  refine ⟨rfl, ?_⟩
  obtain ⟨d, ow, hc, ut, bc, sb, cs, up⟩ := p
  cases d <;> cases ow <;> cases hc <;> cases ut <;> cases bc <;> cases sb <;>
    cases cs <;> cases up <;> rfl

/-- Witness for C9 at the all-false attribute record. -/
theorem generate_deterministic_declaration_order_witness :
    (generateOpportunities allFalseAttrs).map ImpactOpportunity.id
      = (generateOpportunities allFalseAttrs).map ImpactOpportunity.id ∧
    (generateOpportunities allFalseAttrs).map ImpactOpportunity.id
      = specIdOrder allFalseAttrs :=
  generate_deterministic_declaration_order allFalseAttrs allFalseAttrs rfl

/-! ## Characterization of skip-only runs -/

/-- One skip takes the closed-form state at `n` to the closed-form state at
`n + 1`, provided the card ids are distinct and the stack is non-empty. -/
theorem handleSkip_mkSkipState (opps : List ImpactOpportunity)
    (hnd : (opps.map ImpactOpportunity.id).Nodup) (hne : opps ≠ []) (n : Nat) :
    handleSkip (mkSkipState opps n) = mkSkipState opps (n + 1) := by
  have hpos : 0 < opps.length := List.length_pos.mpr hne
  have hrne : opps.rotate n ≠ [] := by
    intro hcon
    have hlr := List.length_rotate opps n
    rw [hcon] at hlr
    simp at hlr
    omega
  obtain ⟨cur, rest, heq⟩ := List.exists_cons_of_ne_nil hrne
  have hstack : (mkSkipState opps n).stack = cur :: rest := heq
  rw [handleSkip_cons (mkSkipState opps n) cur rest hstack]
  have hrot : opps.rotate (n + 1) = rest ++ [cur] := by
    rw [← List.rotate_rotate, heq, List.rotate_cons_succ, List.rotate_zero]
  rcases le_or_lt opps.length n with hn | hn
  · -- every card has been reviewed already: the guard fires, nothing is added
    have htake : opps.take n = opps := List.take_of_length_le hn
    have htake2 : opps.take (n + 1) = opps := List.take_of_length_le (by omega)
    have hcur : cur ∈ opps := by
      have : cur ∈ opps.rotate n := by
        rw [heq]
        exact List.mem_cons_self cur rest
      exact List.mem_rotate.mp this
    have hguard : ((opps.take n).map skipEntry).any
        (fun r => r.opportunity.id == cur.id) = true := by
      rw [htake, List.any_eq_true]
      exact ⟨skipEntry cur, List.mem_map_of_mem _ hcur, by simp [skipEntry]⟩
    simp only [mkSkipState, CardState.mk.injEq]
    refine ⟨trivial, hrot.symm, ?_, ?_⟩
    · rw [if_pos hguard, htake, htake2]
    · have hlen : ((opps.take n).map skipEntry).length = opps.length := by
        rw [htake, List.length_map]
      rw [hlen, if_pos (by omega)]
      have hle : opps.length ≤ n + 1 := by omega
      simp [hle]
  · -- the front card is the first unreviewed one
    have hmlen : n < (opps.map ImpactOpportunity.id).length := by
      rw [List.length_map]
      exact hn
    have hdropn : opps.drop n = opps[n] :: opps.drop (n + 1) :=
      List.drop_eq_getElem_cons hn
    have hreq : opps.rotate n = opps[n] :: (opps.drop (n + 1) ++ opps.take n) := by
      rw [List.rotate_eq_drop_append_take (le_of_lt hn), hdropn]
      rfl
    have hcur : cur = opps[n] := by
      have := heq.symm.trans hreq
      exact (List.cons.injEq _ _ _ _ ▸ this).1
    have hnotin : (opps.map ImpactOpportunity.id)[n] ∉
        (opps.map ImpactOpportunity.id).take n := by
      intro hin
      have hsplit : ((opps.map ImpactOpportunity.id).take n
          ++ (opps.map ImpactOpportunity.id).drop n).Nodup := by
        rw [List.take_append_drop]
        exact hnd
      have hdisj := (List.nodup_append.mp hsplit).2.2
      have hmem : (opps.map ImpactOpportunity.id)[n] ∈
          (opps.map ImpactOpportunity.id).drop n := by
        rw [List.drop_eq_getElem_cons hmlen]
        exact List.mem_cons_self _ _
      exact hdisj hin hmem
    have hids : ∀ o ∈ opps.take n, o.id ≠ cur.id := by
      intro o ho hoc
      apply hnotin
      have h1 : o.id ∈ (opps.map ImpactOpportunity.id).take n := by
        rw [← List.map_take]
        exact List.mem_map_of_mem _ ho
      have h2 : (opps.map ImpactOpportunity.id)[n] = opps[n].id :=
        List.getElem_map _
      rw [h2, ← hcur, ← hoc]
      exact h1
    have hguard : ((opps.take n).map skipEntry).any
        (fun r => r.opportunity.id == cur.id) = false := by
      rw [List.any_eq_false]
      intro r hr
      obtain ⟨o, ho, rfl⟩ := List.mem_map.mp hr
      simp [skipEntry, hids o ho]
    simp only [mkSkipState, CardState.mk.injEq]
    refine ⟨trivial, hrot.symm, ?_, ?_⟩
    · rw [if_neg (by rw [hguard]; exact Bool.false_ne_true)]
      rw [List.take_succ, List.getElem?_eq_getElem hn, ← hcur]
      simp
    · have hlen : ((opps.take n).map skipEntry).length = n := by
        rw [List.length_map, List.length_take]
        omega
      rw [hlen]
      by_cases hcond : opps.length ≤ n + 1
      · rw [if_pos (by omega)]
        simp [hcond]
      · rw [if_neg (by omega)]
        have h1 : ¬ (opps.length ≤ n) := by omega
        simp [h1, hcond]

/-- The state after `n` skips from a fresh stack with distinct ids is the
closed-form state. -/
theorem skipN_eq_mkSkipState (opps : List ImpactOpportunity)
    (hnd : (opps.map ImpactOpportunity.id).Nodup) (hne : opps ≠ []) (n : Nat) :
    skipN n (initState opps) = mkSkipState opps n := by
  induction n with
  | zero =>
    have hpos : 0 < opps.length := List.length_pos.mpr hne
    have hdec : ¬ (opps.length ≤ 0) := by omega
    simp [skipN, initState, mkSkipState, hdec]
  | succ n ih =>
    show handleSkip (skipN n (initState opps)) = mkSkipState opps (n + 1)
    rw [ih, handleSkip_mkSkipState opps hnd hne n]

/-- Claim C1: on any initialized stack with distinct card ids, over any
sequence of skip() calls the controller shows Summary exactly when the count
of distinct reviewed ids equals the original total count; re-skipping an
already-skipped card while another card is unreviewed therefore cannot raise
the flag. -/
theorem skip_summary_iff_all_distinct_reviewed (opps : List ImpactOpportunity)
    (hnd : (opps.map ImpactOpportunity.id).Nodup) (hne : opps ≠ []) (n : Nat) :
    (skipN n (initState opps)).showSummary = true ↔
      distinctReviewedIds (skipN n (initState opps)).reviewed = opps.length := by
  rw [skipN_eq_mkSkipState opps hnd hne n]
  have hids : ((mkSkipState opps n).reviewed.map (fun r => r.opportunity.id))
      = (opps.map ImpactOpportunity.id).take n := by
    have hfun : ((fun r : ReviewedCard => r.opportunity.id) ∘ skipEntry)
        = ImpactOpportunity.id := funext fun o => rfl
    simp [mkSkipState, List.map_map, hfun, List.map_take]
  have hnodup : ((mkSkipState opps n).reviewed.map
      (fun r => r.opportunity.id)).Nodup := by
    rw [hids]
    exact hnd.sublist (List.take_sublist n _)
  unfold distinctReviewedIds
  rw [List.dedup_eq_self.mpr hnodup, hids, List.length_take, List.length_map]
  simp only [mkSkipState, decide_eq_true_eq]
  constructor
  · intro h
    omega
  · intro h
    omega

/-- Witness for C1 on the [A, B, C] stack: the third skip reviews the last
distinct id and shows Summary, while after two skips the flag is still down. -/
theorem skip_summary_iff_all_distinct_reviewed_witness :
    (skipN 3 (initState demoOpps)).showSummary = true ∧
    ¬ ((skipN 2 (initState demoOpps)).showSummary = true) :=
  ⟨(skip_summary_iff_all_distinct_reviewed demoOpps (by decide) (by decide) 3).mpr
      (by decide),
   fun h =>
     absurd
       ((skip_summary_iff_all_distinct_reviewed demoOpps (by decide) (by decide) 2).mp h)
       (by decide)⟩

/-- Claim C3: skip() rotates the front card to the back, preserving the order
of the other queued cards and the queue length; N skips on a fresh stack of N
distinct cards leave the queue length N, record every card as Skipped, and
raise the Summary flag on the Nth call and not before. -/
theorem skip_fifo_rotation_and_exhaustion :
    (∀ (s : CardState) (cur : ImpactOpportunity) (rest : List ImpactOpportunity),
      s.stack = cur :: rest →
      (handleSkip s).stack = rest ++ [cur] ∧
      (handleSkip s).stack.length = s.stack.length) ∧
    (∀ (opps : List ImpactOpportunity),
      (opps.map ImpactOpportunity.id).Nodup → opps ≠ [] →
      (skipN opps.length (initState opps)).stack.length = opps.length ∧
      (skipN opps.length (initState opps)).reviewed = opps.map skipEntry ∧
      (skipN opps.length (initState opps)).showSummary = true ∧
      (skipN (opps.length - 1) (initState opps)).showSummary = false) := by
  constructor
  · intro s cur rest h
    rw [handleSkip_cons s cur rest h]
    refine ⟨rfl, ?_⟩
    simp [h]
  · intro opps hnd hne
    have hpos : 0 < opps.length := List.length_pos.mpr hne
    rw [skipN_eq_mkSkipState opps hnd hne, skipN_eq_mkSkipState opps hnd hne]
    refine ⟨?_, ?_, ?_, ?_⟩
    · simp [mkSkipState]
    · simp [mkSkipState, List.take_length]
    · simp [mkSkipState]
    · have hdec : ¬ (opps.length ≤ opps.length - 1) := by omega
      simp [mkSkipState, hdec]

/-- Witness for C3 on the [A, B, C] stack. -/
theorem skip_fifo_rotation_and_exhaustion_witness :
    (handleSkip (initState demoOpps)).stack = [oppB, oppC] ++ [oppA] ∧
    (handleSkip (initState demoOpps)).stack.length
      = (initState demoOpps).stack.length ∧
    (skipN 3 (initState demoOpps)).stack.length = 3 ∧
    (skipN 3 (initState demoOpps)).reviewed = demoOpps.map skipEntry ∧
    (skipN 3 (initState demoOpps)).showSummary = true ∧
    (skipN 2 (initState demoOpps)).showSummary = false := by
  obtain ⟨h1, h2⟩ :=
    skip_fifo_rotation_and_exhaustion.1 (initState demoOpps) oppA [oppB, oppC] rfl
  obtain ⟨h3, h4, h5, h6⟩ :=
    skip_fifo_rotation_and_exhaustion.2 demoOpps (by decide) (by decide)
  exact ⟨h1, h2, h3, h4, h5, h6⟩

/-! ## The one-entry-per-id invariant -/

/-- reconsider never touches the review list. -/
theorem handleReviewCard_reviewed (s : CardState) (o : ImpactOpportunity) :
    (handleReviewCard s o).reviewed = s.reviewed := by
  by_cases h : s.stack.any (fun x => x.id == o.id) = true <;>
    simp [handleReviewCard, h]

/-- skip preserves distinctness of the reviewed ids. -/
theorem handleSkip_reviewed_nodup (s : CardState)
    (ih : (s.reviewed.map (fun r => r.opportunity.id)).Nodup) :
    ((handleSkip s).reviewed.map (fun r => r.opportunity.id)).Nodup := by
  rcases hstack : s.stack with _ | ⟨cur, rest⟩
  · rw [handleSkip_nil s hstack]
    exact ih
  · rw [handleSkip_cons s cur rest hstack]
    by_cases hg : s.reviewed.any (fun r => r.opportunity.id == cur.id) = true
    · simpa [hg] using ih
    · have hg2 : s.reviewed.any (fun r => r.opportunity.id == cur.id) = false := by
        simpa using hg
      have hnotmem : cur.id ∉ s.reviewed.map (fun r => r.opportunity.id) := by
        intro hmem
        obtain ⟨r, hr, hrid⟩ := List.mem_map.mp hmem
        have := List.any_eq_false.mp hg2 r hr
        simp [hrid] at this
      simp only [hg, if_neg, Bool.false_eq_true, not_false_eq_true, if_false]
      rw [List.map_append]
      rw [List.nodup_append]
      refine ⟨ih, by simp [skipEntry], ?_⟩
      intro a ha hb
      simp [skipEntry] at hb
      rw [hb] at ha
      exact hnotmem ha

/-- accept replaces the entry for the front id, preserving distinctness of the
reviewed ids. -/
theorem handleAccept_reviewed_nodup (s : CardState)
    (ih : (s.reviewed.map (fun r => r.opportunity.id)).Nodup) :
    ((acceptState s).reviewed.map (fun r => r.opportunity.id)).Nodup := by
  rcases hstack : s.stack with _ | ⟨cur, rest⟩
  · unfold acceptState
    rw [handleAccept_nil s hstack]
    exact ih
  · have main : (((s.reviewed.filter (fun r => r.opportunity.id != cur.id)
        ++ [acceptEntry cur]).map (fun r => r.opportunity.id))).Nodup := by
      rw [List.map_append, List.nodup_append]
      refine ⟨?_, by simp [acceptEntry], ?_⟩
      · exact ih.sublist ((List.filter_sublist _).map _)
      · intro a ha hb
        simp [acceptEntry] at hb
        obtain ⟨r, hr, hrid⟩ := List.mem_map.mp ha
        have := List.of_mem_filter hr
        rw [hrid] at this
        simp [bne_iff_ne] at this
        rw [hb] at this
        exact this rfl
    unfold acceptState
    rw [handleAccept_cons s cur rest hstack]
    by_cases he : rest.isEmpty <;> simp [he] <;> simpa using main

/-- The number of review entries carrying a given id equals the multiplicity of
that id in the projected id list. -/
theorem filter_id_length_eq_count (rs : List ReviewedCard) (i : String) :
    (rs.filter (fun r => r.opportunity.id == i)).length
      = (rs.map (fun r => r.opportunity.id)).count i := by
  induction rs with
  | nil => rfl
  | cons r rs ih =>
    by_cases h : r.opportunity.id = i
    · simp [List.filter_cons, List.count_cons, h, ih]
    · simp [List.filter_cons, List.count_cons, h, ih]

/-- Claim C6: in every state reachable by init, skip, accept and reconsider,
the review list holds at most one entry per opportunity id — the projected id
list has no duplicates, and for each id the entries carrying it number at most
one. -/
theorem reachable_at_most_one_entry_per_id (s : CardState) (h : Reachable s) :
    (s.reviewed.map (fun r => r.opportunity.id)).Nodup ∧
    ∀ i : String,
      (s.reviewed.filter (fun r => r.opportunity.id == i)).length ≤ 1 := by
  have key : (s.reviewed.map (fun r => r.opportunity.id)).Nodup := by
    induction h with
    | init opps => simp [initState]
    | skip _ ih => exact handleSkip_reviewed_nodup _ ih
    | accept _ ih => exact handleAccept_reviewed_nodup _ ih
    | reconsider o _ ih => rw [handleReviewCard_reviewed]; exact ih
  refine ⟨key, fun i => ?_⟩
  rw [filter_id_length_eq_count]
  exact List.nodup_iff_count_le_one.mp key i

/-- Witness for C6 at the state reached from [A, B, C] by a skip, an accept
and a reconsider of A. -/
theorem reachable_at_most_one_entry_per_id_witness :
    (scenarioS3.reviewed.map (fun r => r.opportunity.id)).Nodup ∧
    (scenarioS3.reviewed.filter (fun r => r.opportunity.id == "A")).length ≤ 1 :=
  ⟨(reachable_at_most_one_entry_per_id scenarioS3
      ((Reachable.init demoOpps).skip.accept.reconsider oppA)).1,
   (reachable_at_most_one_entry_per_id scenarioS3
      ((Reachable.init demoOpps).skip.accept.reconsider oppA)).2 "A"⟩

end Fulcrum
